import Mathlib

/-! # GenericContainer: a heterogeneous named-value container

A shallow embedding of `GenericContainer/unittest1.cpp` (namespace `GenericStorage`)
and the properties its specification states about it.

Modelling conventions.

* A C++ type is a cv-unqualified type name plus its two top-level cv-qualifiers.
  `typeid(T)` refers to the `std::type_info` of the cv-unqualified type, so the
  model's `typeid` forgets the qualifiers.
* A raw pointer is an address (`Nat`), `nullptr` is address `0`.  A typed pointer
  `T*` carries its static pointee type next to the address; every cast in the
  source (`(void*)var`, `(T*)ptr`, `reinterpret_cast`) keeps the address.
* An object of class `GenericObjectStore` or of a class derived from it is a record
  of its most-derived class (which selects the virtual overrides) and its `ptr` field.
* `std::shared_ptr<GenericObjectStore>` is `Option GenericObjectStore`: `none` is the
  empty shared pointer, `some o` owns the object `o`.
* `std::unordered_map<std::string, V>` is an association list with unique insertion
  through `emplace`; its iteration order is not observable through the container.
* A thrown C++ exception is the `error` case of `Except Exception`.
* Non-`const` member functions return the object's state after the call next to
  their result.
* No member of the container writes to a handle object after publishing it, so a
  stored object is represented by its value; `SetPtr` on an object yields the
  object's next value.
-/

namespace GenericStorage

/-! ## Types, type identity, pointers -/

/-- The cv-unqualified C++ types used as template arguments. -/
inductive TypeName
  | void
  | int
  | double
  | float
  | cls (name : String)
  deriving DecidableEq, Repr

/-- A C++ type `T`: a cv-unqualified type with top-level `const` / `volatile`. -/
structure CppType where
  name : TypeName
  isConst : Bool
  isVolatile : Bool
  deriving DecidableEq, Repr

/-- The unqualified type of the given name. -/
def CppType.plain (n : TypeName) : CppType := ⟨n, false, false⟩

/-- The type `const T` for unqualified `T` of the given name. -/
def CppType.const (n : TypeName) : CppType := ⟨n, true, false⟩

/-- The `std::type_info` object of a type; `operator==` on it is equality. -/
structure type_info where
  name : TypeName
  deriving DecidableEq, Repr

/-- The expression `typeid(T)`: the type_info of the cv-unqualified version of `T`. -/
def typeid (T : CppType) : type_info := ⟨T.name⟩

/-- The value `nullptr`. -/
def nullptr : Nat := 0

/-- A typed pointer `T*`: static pointee type and address. -/
structure TypedPtr where
  pointee : CppType
  addr : Nat
  deriving DecidableEq, Repr

/-- C++ exceptions thrown by the code. -/
inductive Exception
  | runtime_error (what : String)
  | out_of_range
  deriving DecidableEq, Repr

/-- The exception of `GetValuePtr` for an empty shared pointer (spec: `NullHandle`). -/
def NullHandle : Exception :=
  .runtime_error "Data store object pointer is null. This should never happen!"

/-- The exception of `GetValuePtr` for a base-class object (spec: `GenericHandleMisuse`). -/
def GenericHandleMisuse : Exception :=
  .runtime_error "GenericObjectStore should not be used in itself. Use TypeSpecificObjectStore."

/-- The exception of `unordered_map::at` for an absent key (spec: `KeyNotFound`). -/
def KeyNotFound : Exception := .out_of_range

/-! ## `GenericObjectStore` and `TypeSpecificObjectStore<T>` -/

/-- The enum class `StoreType`. -/
inductive StoreType
  | StoreType_Generic
  | StoreType_Specific
  deriving DecidableEq, Repr

/-- The most-derived class of an object whose static type is `GenericObjectStore`. -/
inductive DynamicClass
  | GenericObjectStore
  | TypeSpecificObjectStore (T : CppType)
  deriving DecidableEq, Repr

/-- An object of class `GenericObjectStore` or `TypeSpecificObjectStore<T>`. -/
structure GenericObjectStore where
  dyn : DynamicClass
  ptr : Nat
  deriving DecidableEq, Repr

/-- The constructor `GenericObjectStore()`: `ptr = nullptr`. -/
def GenericObjectStore.new : GenericObjectStore := ⟨.GenericObjectStore, nullptr⟩

/-- The implicit constructor `TypeSpecificObjectStore<T>()`: runs the base constructor. -/
def TypeSpecificObjectStore.new (T : CppType) : GenericObjectStore :=
  ⟨.TypeSpecificObjectStore T, nullptr⟩

/-- The virtual `GetStoreType()`, dispatched on the most-derived class. -/
def GenericObjectStore.GetStoreType (s : GenericObjectStore) : StoreType :=
  match s.dyn with
  | .GenericObjectStore => .StoreType_Generic
  | .TypeSpecificObjectStore _ => .StoreType_Specific

/-- The member `SetPtr(void* dataPointer)`: `ptr = dataPointer`. -/
def GenericObjectStore.SetPtr (s : GenericObjectStore) (dataPointer : Nat) :
    GenericObjectStore :=
  { s with ptr := dataPointer }

/-- The member `GetPtr()`: `return ptr`. -/
def GenericObjectStore.GetPtr (s : GenericObjectStore) : Nat := s.ptr

/-- The virtual `GetTypeInfo()`: `typeid(void)` in the base, `typeid(T)` in the override. -/
def GenericObjectStore.GetTypeInfo (s : GenericObjectStore) : type_info :=
  match s.dyn with
  | .GenericObjectStore => typeid (CppType.plain .void)
  | .TypeSpecificObjectStore T => typeid T

/-- The non-virtual `TypeSpecificObjectStore<T>::GetValue()`: `return (T*)ptr`, called on
an object viewed as a `TypeSpecificObjectStore<T>`. -/
def TypeSpecificObjectStore.GetValue (T : CppType) (s : GenericObjectStore) : TypedPtr :=
  ⟨T, s.ptr⟩

/-- The type `std::shared_ptr<GenericObjectStore>`. -/
abbrev shared_ptr := Option GenericObjectStore

/-! ## `std::unordered_map<std::string, std::shared_ptr<GenericObjectStore>>` -/

/-- The map type of the member `vars`. -/
abbrev unordered_map := List (String × shared_ptr)

/-- The call `m.emplace(k, v)`: inserts only when no element with key `k` exists; returns
the map and whether the insertion took place. -/
def umap_emplace (m : unordered_map) (k : String) (v : shared_ptr) : unordered_map × Bool :=
  match m.lookup k with
  | some _ => (m, false)
  | none => (m ++ [(k, v)], true)

/-- The call `m.at(k)`: the mapped value, or `std::out_of_range` when `k` is absent. -/
def umap_at (m : unordered_map) (k : String) : Except Exception shared_ptr :=
  match m.lookup k with
  | some v => .ok v
  | none => .error .out_of_range

/-- The call `m.size()`. -/
def umap_size (m : unordered_map) : Nat := m.length

/-! ## `GenericContainer` -/

/-- The class `GenericContainer`: its single member `vars`. -/
structure GenericContainer where
  vars : unordered_map
  deriving DecidableEq, Repr

/-- The implicit default constructor: `vars` is empty. -/
def GenericContainer.new : GenericContainer := ⟨[]⟩

/-- The member template `Add<T>(std::string name, T* var)`; `T` is the pointee type of `var`.
A `new` expression never yields null, so the `assert` always passes. -/
def GenericContainer.Add (c : GenericContainer) (name : String) (var : TypedPtr) :
    GenericContainer :=
  let varAsVoidPtr : Nat := var.addr
  let newStore := TypeSpecificObjectStore.new var.pointee
  let newStore := newStore.SetPtr varAsVoidPtr
  ⟨(umap_emplace c.vars name (some newStore)).1⟩

/-- The member `GetGenericStoreAt(std::string name)`: `return vars.at(name)`. -/
def GenericContainer.GetGenericStoreAt (c : GenericContainer) (name : String) :
    Except Exception shared_ptr × GenericContainer :=
  (umap_at c.vars name, c)

/-- The member `Size()`: `return vars.size()`. -/
def GenericContainer.Size (c : GenericContainer) : Nat × GenericContainer :=
  (umap_size c.vars, c)

/-- The function template `GetValuePtr<T>(const std::shared_ptr<GenericObjectStore>&)`. -/
def GetValuePtr (T : CppType) (storeContainer : shared_ptr) : Except Exception TypedPtr :=
  match storeContainer with
  | none => .error NullHandle
  | some genericStore =>
    if genericStore.GetStoreType = .StoreType_Generic then
      .error GenericHandleMisuse
    else
      .ok (TypeSpecificObjectStore.GetValue T genericStore)

/-! ## Call sequences -/

/-- One call `container.Add(name, var)`. -/
structure AddCall where
  name : String
  var : TypedPtr
  deriving DecidableEq, Repr

/-- The container after a sequence of `Add` calls, in order. -/
def runAdds (c : GenericContainer) (calls : List AddCall) : GenericContainer :=
  calls.foldl (fun c a => c.Add a.name a.var) c

/-- The keys held by the map `vars`, in storage order. -/
def GenericContainer.keys (c : GenericContainer) : List String := c.vars.map Prod.fst

/-! ## Caller-owned memory -/

/-- A datum in memory: its (cv-unqualified) type and its value representation. -/
structure Datum where
  type : TypeName
  value : Int
  deriving DecidableEq, Repr

/-- Caller-owned memory: the datum living at each address, if any. -/
abbrev Memory := Nat → Option Datum

/-- Reading `*p`: defined when a datum of the pointee type lives at the address. -/
def Memory.load (m : Memory) (p : TypedPtr) : Option Int :=
  match m p.addr with
  | some d => if d.type = p.pointee.name then some d.value else none
  | none => none

/-- Writing `*p = v`: defined when a datum of the pointee type lives at the address. -/
def Memory.store (m : Memory) (p : TypedPtr) (v : Int) : Option Memory :=
  match m p.addr with
  | some d =>
    if d.type = p.pointee.name then
      some (fun a => if a = p.addr then some ⟨d.type, v⟩ else m a)
    else none
  | none => none

/-- The handle invariant at one handle: when a datum lives at the address `GetPtr()`
returns, `GetTypeInfo()` is the type_info of that datum's type. -/
def tokenDescribesDatum (m : Memory) (s : GenericObjectStore) : Bool :=
  match m s.GetPtr with
  | some d => decide (s.GetTypeInfo = ⟨d.type⟩)
  | none => true

/-- A pointer of static type `T*` that points at a `T` datum or at no datum at all. -/
def TypedPtr.wellTyped (m : Memory) (p : TypedPtr) : Bool :=
  match m p.addr with
  | some d => decide (d.type = p.pointee.name)
  | none => true

end GenericStorage

namespace GenericContainerTest

open GenericStorage

/-- The address of the local `int one`. -/
def addr_one : Nat := 1000

/-- The address of the local `double two`. -/
def addr_two : Nat := 1008

/-- The address of the local `float three`. -/
def addr_three : Nat := 1016

/-- The locals `int one = 1; double two = 2.0; float three = 3.0f;` of the tests. -/
def locals : Memory := fun a =>
  if a = addr_one then some ⟨.int, 1⟩
  else if a = addr_two then some ⟨.double, 2⟩
  else if a = addr_three then some ⟨.float, 3⟩
  else none

/-- The pointer `&one`. -/
def ptr_one : TypedPtr := ⟨CppType.plain .int, addr_one⟩

/-- The pointer `&two`. -/
def ptr_two : TypedPtr := ⟨CppType.plain .double, addr_two⟩

/-- The pointer `&three`. -/
def ptr_three : TypedPtr := ⟨CppType.plain .float, addr_three⟩

/-- The three `Add` calls shared by the tests. -/
def threeAdds : List AddCall :=
  [⟨"one", ptr_one⟩, ⟨"two", ptr_two⟩, ⟨"three", ptr_three⟩]

/-- The address of the local `RandomClass rc`. -/
def addr_rc : Nat := 1024

/-- The pointer `&rc`. -/
def ptr_rc : TypedPtr := ⟨CppType.plain (.cls "RandomClass"), addr_rc⟩

/-- The four `Add` calls of the test `GenericContainerContainsSeveralTypes`. -/
def fourAdds : List AddCall := threeAdds ++ [⟨"RandomClass", ptr_rc⟩]

/-- The container the tests build. -/
def container : GenericContainer := runAdds GenericContainer.new threeAdds

/-- The body of the test `GenericContainer_ModifyOne` after the three `Add` calls: look up
`"one"`, reinterpret `GetPtr()` as `int*`, add one through it, and read the local `one`
back.  `none` stands for a thrown exception or an undefined access. -/
def GenericContainer_ModifyOne : Option Int :=
  match (container.GetGenericStoreAt "one").1 with
  | .ok (some genericStoreAtIndex0) =>
    let valueInStore : TypedPtr := ⟨CppType.plain .int, genericStoreAtIndex0.GetPtr⟩
    match locals.load valueInStore with
    | some old =>
      match locals.store valueInStore (old + 1) with
      | some m => m.load ptr_one
      | none => none
    | none => none
  | _ => none

end GenericContainerTest

namespace GenericStorage

/-! ## Basic facts about the map operations and `Add` -/

/-- The handle object that `Add<T>(name, var)` builds: `new TypeSpecificObjectStore<T>()`
followed by `SetPtr((void*)var)`. -/
theorem Add_newStore_eq (var : TypedPtr) :
    (TypeSpecificObjectStore.new var.pointee).SetPtr var.addr =
      ⟨.TypeSpecificObjectStore var.pointee, var.addr⟩ := rfl

theorem umap_at_eq_error_iff (m : unordered_map) (k : String) :
    umap_at m k = .error KeyNotFound ↔ m.lookup k = none := by
  unfold umap_at KeyNotFound
  cases h : m.lookup k <;> simp

theorem umap_at_eq_ok_iff (m : unordered_map) (k : String) (v : shared_ptr) :
    umap_at m k = .ok v ↔ m.lookup k = some v := by
  unfold umap_at
  cases h : m.lookup k <;> simp

theorem GetGenericStoreAt_error_iff (c : GenericContainer) (k : String) :
    (c.GetGenericStoreAt k).1 = .error KeyNotFound ↔ c.vars.lookup k = none := by
  simp [GenericContainer.GetGenericStoreAt, umap_at_eq_error_iff]

theorem lookup_append_single_self (m : unordered_map) (k : String) (v : shared_ptr)
    (h : m.lookup k = none) : (m ++ [(k, v)]).lookup k = some v := by
  simp [List.lookup_append, h, List.lookup_cons]

theorem lookup_append_single_ne (m : unordered_map) (k j : String) (v : shared_ptr)
    (h : j ≠ k) : (m ++ [(k, v)]).lookup j = m.lookup j := by
  have hb : (j == k) = false := by simpa using h
  simp [List.lookup_append, List.lookup_cons, hb]

theorem Add_vars_of_absent (c : GenericContainer) (k : String) (p : TypedPtr)
    (h : c.vars.lookup k = none) :
    (c.Add k p).vars = c.vars ++ [(k, some ⟨.TypeSpecificObjectStore p.pointee, p.addr⟩)] := by
  simp [GenericContainer.Add, umap_emplace, h, TypeSpecificObjectStore.new,
    GenericObjectStore.SetPtr]

theorem Add_of_present (c : GenericContainer) (k : String) (p : TypedPtr)
    (h : c.vars.lookup k ≠ none) : c.Add k p = c := by
  cases hl : c.vars.lookup k with
  | none => exact absurd hl h
  | some v => simp [GenericContainer.Add, umap_emplace, hl]

theorem lookup_Add_self (c : GenericContainer) (k : String) (p : TypedPtr)
    (h : c.vars.lookup k = none) :
    (c.Add k p).vars.lookup k = some (some ⟨.TypeSpecificObjectStore p.pointee, p.addr⟩) := by
  rw [Add_vars_of_absent c k p h]
  exact lookup_append_single_self _ _ _ h

theorem lookup_Add_ne (c : GenericContainer) (k j : String) (p : TypedPtr) (h : j ≠ k) :
    (c.Add k p).vars.lookup j = c.vars.lookup j := by
  cases hl : c.vars.lookup k with
  | none =>
    rw [Add_vars_of_absent c k p hl]
    exact lookup_append_single_ne _ _ _ _ h
  | some v =>
    rw [Add_of_present c k p (by simp [hl])]

theorem size_Add (c : GenericContainer) (k : String) (p : TypedPtr) :
    ((c.Add k p).Size).1 = (c.Size).1 + (if c.vars.lookup k = none then 1 else 0) := by
  cases hl : c.vars.lookup k with
  | none =>
    simp [GenericContainer.Size, umap_size, Add_vars_of_absent c k p hl]
  | some v =>
    rw [Add_of_present c k p (by simp [hl])]
    simp

/-! ## The key set of a container -/

theorem lookup_eq_none_iff_not_mem_keys (c : GenericContainer) (k : String) :
    c.vars.lookup k = none ↔ k ∉ c.keys := by
  simp only [List.lookup_eq_none_iff, GenericContainer.keys, List.mem_map, not_exists, not_and]
  constructor
  · intro h x hx hxk
    have := h x hx
    simp [hxk] at this
  · intro h x hx
    have := h x hx
    simpa [bne_iff_ne] using fun e => this e.symm

theorem keys_Add (c : GenericContainer) (k : String) (p : TypedPtr) :
    (c.Add k p).keys = if k ∈ c.keys then c.keys else c.keys ++ [k] := by
  by_cases hk : k ∈ c.keys
  · have hl : c.vars.lookup k ≠ none := by
      rw [Ne, lookup_eq_none_iff_not_mem_keys]; simpa using hk
    rw [Add_of_present c k p hl, if_pos hk]
  · have hl : c.vars.lookup k = none := (lookup_eq_none_iff_not_mem_keys c k).2 hk
    rw [if_neg hk]
    simp [GenericContainer.keys, Add_vars_of_absent c k p hl]

theorem keys_Add_nodup (c : GenericContainer) (k : String) (p : TypedPtr)
    (h : c.keys.Nodup) : (c.Add k p).keys.Nodup := by
  rw [keys_Add]
  split
  · exact h
  · next hk =>
    rw [List.nodup_append]
    refine ⟨h, List.nodup_singleton k, ?_⟩
    intro a ha hb
    rw [List.mem_singleton] at hb
    exact hk (hb ▸ ha)

theorem mem_keys_Add (c : GenericContainer) (k j : String) (p : TypedPtr) :
    j ∈ (c.Add k p).keys ↔ j ∈ c.keys ∨ j = k := by
  rw [keys_Add]
  split
  · next hk =>
    constructor
    · exact Or.inl
    · rintro (h | rfl)
      · exact h
      · exact hk
  · simp

theorem keys_runAdds_nodup (calls : List AddCall) (c : GenericContainer)
    (h : c.keys.Nodup) : (runAdds c calls).keys.Nodup := by
  induction calls generalizing c with
  | nil => exact h
  | cons a rest ih => exact ih (c.Add a.name a.var) (keys_Add_nodup c a.name a.var h)

theorem mem_keys_runAdds (calls : List AddCall) (c : GenericContainer) (j : String) :
    j ∈ (runAdds c calls).keys ↔ j ∈ c.keys ∨ j ∈ calls.map AddCall.name := by
  induction calls generalizing c with
  | nil => simp [runAdds]
  | cons a rest ih =>
    have := ih (c.Add a.name a.var)
    simp only [runAdds, List.foldl_cons] at this ⊢
    rw [this, mem_keys_Add]
    simp only [List.map_cons, List.mem_cons]
    tauto

theorem size_eq_length_keys (c : GenericContainer) : (c.Size).1 = c.keys.length := by
  simp [GenericContainer.Size, umap_size, GenericContainer.keys]

/-- The number of entries after a run of `Add` calls on the empty container is the number
of distinct names in the run. -/
theorem size_runAdds_new (calls : List AddCall) :
    ((runAdds GenericContainer.new calls).Size).1 = (calls.map AddCall.name).dedup.length := by
  rw [size_eq_length_keys]
  have hnd := keys_runAdds_nodup calls GenericContainer.new (by
    simp [GenericContainer.keys, GenericContainer.new])
  rw [← List.toFinset_card_of_nodup hnd, ← List.card_toFinset]
  congr 1
  ext j
  simp only [List.mem_toFinset]
  rw [mem_keys_runAdds]
  simp [GenericContainer.keys, GenericContainer.new]

/-! ## Round trip and aliasing -/

/-- C1 (round trip): in every store that does not yet hold key `k`, after `Add<T>(k, p)`
with `p` referring to a `T` value `v`, `GetGenericStoreAt(k)` returns a handle `h` on
which `GetValuePtr<T>` succeeds and returns `p` itself, the pointee of the returned
reference is `v`, and `h->GetTypeInfo()` is the token of `T`. -/
theorem C1_round_trip (c : GenericContainer) (k : String) (p : TypedPtr) (m : Memory) (v : Int)
    (hk : (c.GetGenericStoreAt k).1 = .error KeyNotFound)
    (hp : m p.addr = some ⟨p.pointee.name, v⟩) :
    ∃ h : GenericObjectStore,
      ((c.Add k p).GetGenericStoreAt k).1 = .ok (some h) ∧
      GetValuePtr p.pointee (some h) = .ok p ∧
      (∀ r, GetValuePtr p.pointee (some h) = .ok r → m.load r = some v) ∧
      h.GetTypeInfo = typeid p.pointee := by
  have hl : c.vars.lookup k = none := (GetGenericStoreAt_error_iff c k).1 hk
  have hg : GetValuePtr p.pointee (some ⟨.TypeSpecificObjectStore p.pointee, p.addr⟩) = .ok p := by
    simp [GetValuePtr, GenericObjectStore.GetStoreType, TypeSpecificObjectStore.GetValue]
  refine ⟨⟨.TypeSpecificObjectStore p.pointee, p.addr⟩, ?_, hg, ?_, rfl⟩
  · simp [GenericContainer.GetGenericStoreAt, umap_at, lookup_Add_self c k p hl]
  · intro r hr
    rw [hg] at hr
    cases hr
    simp [Memory.load, hp]

/-- C1 at the test data: `Add("one", &one)` on a container holding `"two"`. -/
theorem C1_round_trip_witness :
    ((GenericContainer.new.Add "two" GenericContainerTest.ptr_two).GetGenericStoreAt "one").1
        = .error KeyNotFound ∧
    GenericContainerTest.locals GenericContainerTest.ptr_one.addr = some ⟨.int, 1⟩ ∧
    ∃ h : GenericObjectStore,
      (((GenericContainer.new.Add "two" GenericContainerTest.ptr_two).Add "one"
          GenericContainerTest.ptr_one).GetGenericStoreAt "one").1 = .ok (some h) ∧
      GetValuePtr (CppType.plain .int) (some h) = .ok GenericContainerTest.ptr_one ∧
      (∀ r, GetValuePtr (CppType.plain .int) (some h) = .ok r →
        GenericContainerTest.locals.load r = some 1) ∧
      h.GetTypeInfo = typeid (CppType.plain .int) :=
  ⟨rfl, rfl,
    C1_round_trip (GenericContainer.new.Add "two" GenericContainerTest.ptr_two) "one"
      GenericContainerTest.ptr_one GenericContainerTest.locals 1 rfl rfl⟩

/-- C2, refuted as stated: the container of the tests already holds `"one"`, so after
`Add<double>("one", &two)` the handle stored under `"one"` is still the first one: its
`GetPtr()` is `&one`, not the `&two` that was passed, `GetValuePtr<double>` does not
return `&two`, and a write through the recovered address changes the local `one` and
leaves the local `two` as it was. -/
theorem C2_mutation_visibility_counterexample :
    ∃ h : GenericObjectStore,
      ((GenericContainerTest.container.Add "one"
        GenericContainerTest.ptr_two).GetGenericStoreAt "one").1 = .ok (some h) ∧
      h.GetPtr = GenericContainerTest.addr_one ∧
      h.GetPtr ≠ GenericContainerTest.ptr_two.addr ∧
      TypeSpecificObjectStore.GetValue (CppType.plain .double) h ≠ GenericContainerTest.ptr_two ∧
      GetValuePtr (CppType.plain .double) (some h) ≠ .ok GenericContainerTest.ptr_two ∧
      ∃ m1 : Memory,
        GenericContainerTest.locals.store ⟨CppType.plain .int, h.GetPtr⟩ 7 = some m1 ∧
        m1 GenericContainerTest.addr_one = some ⟨.int, 7⟩ ∧
        m1 GenericContainerTest.ptr_two.addr = some ⟨.double, 2⟩ :=
  ⟨⟨.TypeSpecificObjectStore (CppType.plain .int), GenericContainerTest.addr_one⟩,
    rfl, rfl, by decide, by decide,
    fun e => absurd (congrArg TypedPtr.addr (Except.ok.inj e)) (by decide),
    fun a => if a = GenericContainerTest.addr_one then some ⟨.int, 7⟩
      else GenericContainerTest.locals a,
    rfl, rfl, rfl⟩

/-- C2, amended: for every store, key `k` not yet present and reference `p`, `Add<T>(k, p)`
stores under `k` a handle whose `GetPtr()`, `GetValue()` and `GetValuePtr<T>` all yield `p`
itself; a write through that recovered reference is a write to the caller-owned variable
at `p`: it succeeds whenever a `T` datum lives at `p`, the variable at `p` then holds the
written value, and no other address changes.  When `k` is already present, `Add<T>(k, p)`
stores nothing and leaves the store as it was. -/
theorem C2_mutation_visibility (c : GenericContainer) (k : String) (p : TypedPtr) :
    ((c.GetGenericStoreAt k).1 ≠ .error KeyNotFound → c.Add k p = c) ∧
    ((c.GetGenericStoreAt k).1 = .error KeyNotFound →
      ∃ h : GenericObjectStore,
        ((c.Add k p).GetGenericStoreAt k).1 = .ok (some h) ∧
        h.GetPtr = p.addr ∧
        TypeSpecificObjectStore.GetValue p.pointee h = p ∧
        GetValuePtr p.pointee (some h) = .ok p ∧
        ∀ (m : Memory) (d : Datum) (v : Int), m p.addr = some d → d.type = p.pointee.name →
          ∃ m1 : Memory,
            m.store (TypeSpecificObjectStore.GetValue p.pointee h) v = some m1 ∧
            m1 p.addr = some ⟨d.type, v⟩ ∧
            m1.load p = some v ∧
            ∀ a, a ≠ p.addr → m1 a = m a) := by
  constructor
  · intro hk
    apply Add_of_present
    intro hl
    exact hk ((GetGenericStoreAt_error_iff c k).2 hl)
  · intro hk
    have hl : c.vars.lookup k = none := (GetGenericStoreAt_error_iff c k).1 hk
    refine ⟨⟨.TypeSpecificObjectStore p.pointee, p.addr⟩, ?_, rfl, rfl, ?_, ?_⟩
    · simp [GenericContainer.GetGenericStoreAt, umap_at, lookup_Add_self c k p hl]
    · simp [GetValuePtr, GenericObjectStore.GetStoreType, TypeSpecificObjectStore.GetValue]
    · intro m d v hm ht
      refine ⟨fun a => if a = p.addr then some ⟨d.type, v⟩ else m a, ?_, ?_, ?_, ?_⟩
      · simp [Memory.store, TypeSpecificObjectStore.GetValue, hm, ht]
      · simp
      · simp [Memory.load, ht]
      · intro a ha
        simp [ha]

/-- C2 (amended) at the test data: `Add("one", &one)` on a fresh container, together with the
outcome `one == 2` of the test `GenericContainer_ModifyOne`. -/
theorem C2_mutation_visibility_witness :
    GenericContainerTest.GenericContainer_ModifyOne = some 2 ∧
    (GenericContainer.new.GetGenericStoreAt "one").1 = .error KeyNotFound ∧
    GenericContainerTest.locals GenericContainerTest.ptr_one.addr = some ⟨.int, 1⟩ ∧
    ∃ h : GenericObjectStore,
      ((GenericContainer.new.Add "one" GenericContainerTest.ptr_one).GetGenericStoreAt
        "one").1 = .ok (some h) ∧
      h.GetPtr = GenericContainerTest.addr_one ∧
      ∃ m1 : Memory,
        GenericContainerTest.locals.store
          (TypeSpecificObjectStore.GetValue (CppType.plain .int) h) 2 = some m1 ∧
        m1 GenericContainerTest.addr_one = some ⟨.int, 2⟩ := by
  refine ⟨rfl, rfl, rfl, ?_⟩
  obtain ⟨h, h1, h2, _, _, h5⟩ :=
    (C2_mutation_visibility GenericContainer.new "one" GenericContainerTest.ptr_one).2 rfl
  obtain ⟨m1, hs, hv, _, _⟩ := h5 GenericContainerTest.locals ⟨.int, 1⟩ 2 rfl rfl
  exact ⟨h, h1, h2, m1, hs, hv⟩

/-! ## Lookup failure, emptiness and size -/

theorem lookup_runAdds_none (calls : List AddCall) (c : GenericContainer) (k : String)
    (hc : k ∉ c.keys) (hk : k ∉ calls.map AddCall.name) :
    (runAdds c calls).vars.lookup k = none := by
  rw [lookup_eq_none_iff_not_mem_keys, mem_keys_runAdds]
  tauto

/-- C3 (missing key): in every store built from a store without key `k` by `Add` calls
none of which names `k`, `GetGenericStoreAt(k)` throws `std::out_of_range` (`KeyNotFound`),
returns no handle, and leaves the store as it was: the state after the failed call is the
state before it, so `Size()` and every lookup give the same results. -/
theorem C3_missing_key (c0 : GenericContainer) (calls : List AddCall) (k : String)
    (h0 : k ∉ c0.keys) (hk : k ∉ calls.map AddCall.name) :
    ((runAdds c0 calls).GetGenericStoreAt k).1 = .error KeyNotFound ∧
    (∀ h, ((runAdds c0 calls).GetGenericStoreAt k).1 ≠ .ok h) ∧
    ((runAdds c0 calls).GetGenericStoreAt k).2 = runAdds c0 calls ∧
    (((runAdds c0 calls).GetGenericStoreAt k).2.Size).1 = ((runAdds c0 calls).Size).1 ∧
    ∀ j, (((runAdds c0 calls).GetGenericStoreAt k).2.GetGenericStoreAt j).1 =
      ((runAdds c0 calls).GetGenericStoreAt j).1 := by
  have hl := lookup_runAdds_none calls c0 k h0 hk
  have he : ((runAdds c0 calls).GetGenericStoreAt k).1 = .error KeyNotFound :=
    (GetGenericStoreAt_error_iff _ k).2 hl
  refine ⟨he, ?_, rfl, rfl, fun j => rfl⟩
  intro h hh
  rw [he] at hh
  cases hh

/-- C3 at the test data: the key `"nonexistent"` in the container of the tests. -/
theorem C3_missing_key_witness :
    "nonexistent" ∉ GenericContainer.new.keys ∧
    "nonexistent" ∉ GenericContainerTest.threeAdds.map AddCall.name ∧
    (GenericContainerTest.container.GetGenericStoreAt "nonexistent").1 = .error KeyNotFound ∧
    (GenericContainerTest.container.GetGenericStoreAt "nonexistent").2 =
      GenericContainerTest.container ∧
    ((GenericContainerTest.container.GetGenericStoreAt "nonexistent").2.Size).1 = 3 :=
  have h := C3_missing_key GenericContainer.new GenericContainerTest.threeAdds "nonexistent"
    (by decide) (by decide)
  ⟨by decide, by decide, h.1, h.2.2.1, h.2.2.2.1.trans rfl⟩

/-- C4 (insertion count): after `N` calls of `Add` on a fresh store with pairwise distinct
keys and any value types, `Size()` is `N`. -/
theorem C4_insertion_count (calls : List AddCall)
    (hd : (calls.map AddCall.name).Nodup) :
    ((runAdds GenericContainer.new calls).Size).1 = calls.length := by
  rw [size_runAdds_new, List.Nodup.dedup hd, List.length_map]

/-- C4 at the test `GenericContainerContainsSeveralTypes`: four values of four types. -/
theorem C4_insertion_count_witness :
    (GenericContainerTest.fourAdds.map AddCall.name).Nodup ∧
    ((runAdds GenericContainer.new GenericContainerTest.fourAdds).Size).1 = 4 :=
  ⟨by decide, C4_insertion_count GenericContainerTest.fourAdds (by decide)⟩

/-- C5 (fresh store is empty): a default-constructed `GenericContainer` has `Size() == 0`
and `GetGenericStoreAt` throws `std::out_of_range` for every key. -/
theorem C5_fresh_store_empty :
    (GenericContainer.new.Size).1 = 0 ∧
    ∀ k : String, (GenericContainer.new.GetGenericStoreAt k).1 = .error KeyNotFound :=
  ⟨rfl, fun _ => rfl⟩

/-- C9 (size invariant): after any finite sequence of `Add` calls on a fresh store, with
keys possibly repeated and types varying, `Size()` is the number of distinct keys that
occur in the sequence. -/
theorem C9_size_distinct_keys (calls : List AddCall) :
    ((runAdds GenericContainer.new calls).Size).1 = (calls.map AddCall.name).dedup.length ∧
    ((runAdds GenericContainer.new calls).Size).1 = (calls.map AddCall.name).toFinset.card := by
  rw [List.card_toFinset]
  exact ⟨size_runAdds_new calls, size_runAdds_new calls⟩

/-! ## The downcast `GetValuePtr<T>` -/

theorem NullHandle_ne_GenericHandleMisuse : NullHandle ≠ GenericHandleMisuse := by decide

/-- C6 (failures of the downcast): `GetValuePtr<T>` throws the `NullHandle` error exactly
for the empty shared pointer (this test comes first, so an empty pointer never reaches the
second one), throws the `GenericHandleMisuse` error exactly for a non-empty pointer whose
object reports `StoreType_Generic`, throws nothing else, and on every other handle returns
the typed accessor's result, whose address is the handle's stored reference. -/
theorem C6_GetValuePtr_failures (T : CppType) (h : shared_ptr) :
    (GetValuePtr T h = .error NullHandle ↔ h = none) ∧
    (GetValuePtr T h = .error GenericHandleMisuse ↔
      ∃ o, h = some o ∧ o.GetStoreType = .StoreType_Generic) ∧
    (∀ e, GetValuePtr T h = .error e → e = NullHandle ∨ e = GenericHandleMisuse) ∧
    (∀ o, h = some o → o.GetStoreType ≠ .StoreType_Generic →
      GetValuePtr T h = .ok (TypeSpecificObjectStore.GetValue T o) ∧
      TypeSpecificObjectStore.GetValue T o = ⟨T, o.GetPtr⟩) := by
  cases h with
  | none =>
    refine ⟨by simp [GetValuePtr], ?_, ?_, by simp⟩
    · simp only [GetValuePtr, Except.error.injEq]
      constructor
      · intro hh; exact absurd hh NullHandle_ne_GenericHandleMisuse
      · rintro ⟨o, ho, _⟩; cases ho
    · intro e he
      simp only [GetValuePtr, Except.error.injEq] at he
      exact Or.inl he.symm
  | some o =>
    by_cases hg : o.GetStoreType = .StoreType_Generic
    · refine ⟨?_, ?_, ?_, ?_⟩
      · simp only [GetValuePtr, hg, if_true, Except.error.injEq]
        constructor
        · intro hh; exact absurd hh.symm NullHandle_ne_GenericHandleMisuse
        · intro hh; cases hh
      · simp [GetValuePtr, hg]
      · intro e he
        simp only [GetValuePtr, hg, if_true, Except.error.injEq] at he
        exact Or.inr he.symm
      · intro o1 ho hn
        cases ho
        exact absurd hg hn
    · refine ⟨by simp [GetValuePtr, hg], ?_, ?_, ?_⟩
      · simp only [GetValuePtr, hg, if_false]
        constructor
        · intro hh; cases hh
        · rintro ⟨o1, ho, h1⟩
          cases ho
          exact absurd h1 hg
      · intro e he
        simp [GetValuePtr, hg] at he
      · intro o1 ho _
        cases ho
        exact ⟨by simp [GetValuePtr, hg], rfl⟩

/-- C6 at three handles: the empty pointer, a bare `GenericObjectStore`, and the handle
stored by `Add("one", &one)`. -/
theorem C6_GetValuePtr_failures_witness :
    GetValuePtr (CppType.plain .int) none = .error NullHandle ∧
    GetValuePtr (CppType.plain .int) (some GenericObjectStore.new) = .error GenericHandleMisuse ∧
    GetValuePtr (CppType.plain .int)
      (some ((TypeSpecificObjectStore.new (CppType.plain .int)).SetPtr 1000)) =
        .ok ⟨CppType.plain .int, 1000⟩ :=
  ⟨(C6_GetValuePtr_failures (CppType.plain .int) none).1.2 rfl,
   (C6_GetValuePtr_failures (CppType.plain .int) (some GenericObjectStore.new)).2.1.2
      ⟨GenericObjectStore.new, rfl, rfl⟩,
   ((C6_GetValuePtr_failures (CppType.plain .int)
      (some ((TypeSpecificObjectStore.new (CppType.plain .int)).SetPtr 1000))).2.2.2
      _ rfl (by decide)).1⟩

/-- C7 (unchecked downcast): for the handle that `Add<U>(k, p)` stores under a new key `k`
and for every requested type `T`, `GetValuePtr<T>` succeeds (no exception, in particular no
type-mismatch failure) and returns a `T*` holding the very address that `GetValuePtr<U>`
and `GetPtr()` return; the outcome is the same for every `Specific` object holding that
address, whatever its `GetTypeInfo()`. -/
theorem C7_unchecked_downcast (c : GenericContainer) (k : String) (p : TypedPtr) (T : CppType)
    (hk : (c.GetGenericStoreAt k).1 = .error KeyNotFound) :
    ∃ h : GenericObjectStore,
      ((c.Add k p).GetGenericStoreAt k).1 = .ok (some h) ∧
      h.GetTypeInfo = typeid p.pointee ∧
      GetValuePtr T (some h) = .ok ⟨T, p.addr⟩ ∧
      GetValuePtr p.pointee (some h) = .ok ⟨p.pointee, p.addr⟩ ∧
      h.GetPtr = p.addr ∧
      ∀ V : CppType, GetValuePtr T (some ⟨.TypeSpecificObjectStore V, h.GetPtr⟩) =
        GetValuePtr T (some h) := by
  have hl : c.vars.lookup k = none := (GetGenericStoreAt_error_iff c k).1 hk
  refine ⟨⟨.TypeSpecificObjectStore p.pointee, p.addr⟩, ?_, rfl, ?_, ?_, rfl, ?_⟩
  · simp [GenericContainer.GetGenericStoreAt, umap_at, lookup_Add_self c k p hl]
  · simp [GetValuePtr, GenericObjectStore.GetStoreType, TypeSpecificObjectStore.GetValue]
  · simp [GetValuePtr, GenericObjectStore.GetStoreType, TypeSpecificObjectStore.GetValue]
  · intro V
    simp [GetValuePtr, GenericObjectStore.GetStoreType, TypeSpecificObjectStore.GetValue,
      GenericObjectStore.GetPtr]

/-- C7 at the test data: the `int` handle under `"one"` read as a `double*`. -/
theorem C7_unchecked_downcast_witness :
    (GenericContainer.new.GetGenericStoreAt "one").1 = .error KeyNotFound ∧
    ∃ h : GenericObjectStore,
      ((GenericContainer.new.Add "one" GenericContainerTest.ptr_one).GetGenericStoreAt
        "one").1 = .ok (some h) ∧
      h.GetTypeInfo = typeid (CppType.plain .int) ∧
      GetValuePtr (CppType.plain .double) (some h) =
        .ok ⟨CppType.plain .double, GenericContainerTest.addr_one⟩ := by
  obtain ⟨h, h1, h2, h3, _⟩ :=
    C7_unchecked_downcast GenericContainer.new "one" GenericContainerTest.ptr_one
      (CppType.plain .double) rfl
  exact ⟨rfl, h, h1, h2, h3⟩

/-! ## Type tokens -/

/-- C8, refuted as stated: (1) `Add<int>("a", ..)` and `Add<const int>("b", ..)` on a fresh
store use different keys and different types `T`, `U`, yet the two handles report equal
tokens, because `typeid` ignores top-level cv-qualifiers; (2) on a store that already
holds `"a"` with a `double`, `Add<int>("a", ..)` and `Add<double>("b", ..)` leave handles
with equal tokens at `"a"` and `"b"`, because the first insertion under `"a"` stays. -/
theorem C8_type_token_counterexample :
    ("a" ≠ "b" ∧ CppType.plain .int ≠ CppType.const .int ∧
      ∃ h1 h2 : GenericObjectStore,
        (((GenericContainer.new.Add "a" ⟨CppType.plain .int, 1000⟩).Add "b"
            ⟨CppType.const .int, 1004⟩).GetGenericStoreAt "a").1 = .ok (some h1) ∧
        (((GenericContainer.new.Add "a" ⟨CppType.plain .int, 1000⟩).Add "b"
            ⟨CppType.const .int, 1004⟩).GetGenericStoreAt "b").1 = .ok (some h2) ∧
        h1.GetTypeInfo = h2.GetTypeInfo) ∧
    ("a" ≠ "b" ∧ CppType.plain .int ≠ CppType.plain .double ∧
      ∃ h1 h2 : GenericObjectStore,
        ((((GenericContainer.new.Add "a" ⟨CppType.plain .double, 1008⟩).Add "a"
            ⟨CppType.plain .int, 1000⟩).Add "b"
            ⟨CppType.plain .double, 1016⟩).GetGenericStoreAt "a").1 = .ok (some h1) ∧
        ((((GenericContainer.new.Add "a" ⟨CppType.plain .double, 1008⟩).Add "a"
            ⟨CppType.plain .int, 1000⟩).Add "b"
            ⟨CppType.plain .double, 1016⟩).GetGenericStoreAt "b").1 = .ok (some h2) ∧
        h1.GetTypeInfo = h2.GetTypeInfo) :=
  ⟨⟨by decide, by decide,
      ⟨.TypeSpecificObjectStore (CppType.plain .int), 1000⟩,
      ⟨.TypeSpecificObjectStore (CppType.const .int), 1004⟩, rfl, rfl, rfl⟩,
   ⟨by decide, by decide,
      ⟨.TypeSpecificObjectStore (CppType.plain .double), 1008⟩,
      ⟨.TypeSpecificObjectStore (CppType.plain .double), 1016⟩, rfl, rfl, rfl⟩⟩

/-- C8, amended: in every store holding neither `k1` nor `k2`, after `Add<T>(k1, p1)` and
`Add<U>(k2, p2)` with `k1 ≠ k2`, the handles found at `k1` and `k2` report the tokens of
`T` and of `U`, and these are equal exactly when `T` and `U` have the same cv-unqualified
type: unequal when the unqualified types differ (`int` and `double`), equal when `T = U`. -/
theorem C8_type_token_discrimination (c : GenericContainer) (k1 k2 : String)
    (p1 p2 : TypedPtr) (hne : k1 ≠ k2)
    (hk1 : (c.GetGenericStoreAt k1).1 = .error KeyNotFound)
    (hk2 : (c.GetGenericStoreAt k2).1 = .error KeyNotFound) :
    ∃ h1 h2 : GenericObjectStore,
      (((c.Add k1 p1).Add k2 p2).GetGenericStoreAt k1).1 = .ok (some h1) ∧
      (((c.Add k1 p1).Add k2 p2).GetGenericStoreAt k2).1 = .ok (some h2) ∧
      h1.GetTypeInfo = typeid p1.pointee ∧
      h2.GetTypeInfo = typeid p2.pointee ∧
      (h1.GetTypeInfo = h2.GetTypeInfo ↔ p1.pointee.name = p2.pointee.name) ∧
      (p1.pointee.name ≠ p2.pointee.name → h1.GetTypeInfo ≠ h2.GetTypeInfo) ∧
      (p1.pointee = p2.pointee → h1.GetTypeInfo = h2.GetTypeInfo) := by
  have hl1 : c.vars.lookup k1 = none := (GetGenericStoreAt_error_iff c k1).1 hk1
  have hl2 : c.vars.lookup k2 = none := (GetGenericStoreAt_error_iff c k2).1 hk2
  have hl2a : (c.Add k1 p1).vars.lookup k2 = none := by
    rw [lookup_Add_ne c k1 k2 p1 (Ne.symm hne)]; exact hl2
  have hiff : (typeid p1.pointee = typeid p2.pointee ↔ p1.pointee.name = p2.pointee.name) := by
    simp [typeid]
  refine ⟨⟨.TypeSpecificObjectStore p1.pointee, p1.addr⟩,
    ⟨.TypeSpecificObjectStore p2.pointee, p2.addr⟩, ?_, ?_, rfl, rfl, hiff, ?_, ?_⟩
  · simp [GenericContainer.GetGenericStoreAt, umap_at, lookup_Add_ne (c.Add k1 p1) k2 k1 p2 hne,
      lookup_Add_self c k1 p1 hl1]
  · simp [GenericContainer.GetGenericStoreAt, umap_at, lookup_Add_self (c.Add k1 p1) k2 p2 hl2a]
  · intro hn he
    exact hn (hiff.1 he)
  · intro he
    exact hiff.2 (by rw [he])

/-- C8 (amended) at the test data: `"one"` holds an `int`, `"two"` a `double`. -/
theorem C8_type_token_discrimination_witness :
    "one" ≠ "two" ∧
    (GenericContainer.new.GetGenericStoreAt "one").1 = .error KeyNotFound ∧
    (GenericContainer.new.GetGenericStoreAt "two").1 = .error KeyNotFound ∧
    ∃ h1 h2 : GenericObjectStore,
      (((GenericContainer.new.Add "one" GenericContainerTest.ptr_one).Add "two"
          GenericContainerTest.ptr_two).GetGenericStoreAt "one").1 = .ok (some h1) ∧
      (((GenericContainer.new.Add "one" GenericContainerTest.ptr_one).Add "two"
          GenericContainerTest.ptr_two).GetGenericStoreAt "two").1 = .ok (some h2) ∧
      h1.GetTypeInfo ≠ h2.GetTypeInfo := by
  obtain ⟨h1, h2, e1, e2, _, _, _, hn, _⟩ :=
    C8_type_token_discrimination GenericContainer.new "one" "two"
      GenericContainerTest.ptr_one GenericContainerTest.ptr_two (by decide) rfl rfl
  exact ⟨by decide, rfl, rfl, h1, h2, e1, e2, hn (by decide)⟩

/-! ## The handle invariant -/

/-- Every handle of a store built by `Add` calls was either in the store before or is the
object one of the calls built. -/
theorem lookup_runAdds_origin (calls : List AddCall) (c : GenericContainer) (k : String)
    (h : shared_ptr) (hl : (runAdds c calls).vars.lookup k = some h) :
    c.vars.lookup k = some h ∨
      ∃ a ∈ calls, a.name = k ∧ h = some ⟨.TypeSpecificObjectStore a.var.pointee, a.var.addr⟩ := by
  induction calls generalizing c with
  | nil => exact Or.inl hl
  | cons a rest ih =>
    have hstep : (runAdds (c.Add a.name a.var) rest).vars.lookup k = some h := hl
    rcases ih (c.Add a.name a.var) hstep with h1 | ⟨b, hb, hbk, hbh⟩
    · by_cases hk : k = a.name
      · cases hc : c.vars.lookup a.name with
        | none =>
          right
          refine ⟨a, List.mem_cons_self _ _, hk.symm, ?_⟩
          rw [hk, lookup_Add_self c a.name a.var hc] at h1
          exact (Option.some.inj h1).symm
        | some v =>
          left
          rw [Add_of_present c a.name a.var (by simp [hc])] at h1
          exact h1
      · left
        rw [lookup_Add_ne c a.name k a.var hk] at h1
        exact h1
    · exact Or.inr ⟨b, List.mem_cons_of_mem _ hb, hbk, hbh⟩

/-- C10, refuted as stated: the handle found under `"one"` in the container of the tests
satisfies the invariant (token `int`, datum `int one`), and after the public call
`SetPtr(&two)` on it the token is still that of `int` while `GetPtr()` reaches the
`double two`. -/
theorem C10_handle_invariant_counterexample :
    ∃ h : GenericObjectStore,
      (GenericContainerTest.container.GetGenericStoreAt "one").1 = .ok (some h) ∧
      tokenDescribesDatum GenericContainerTest.locals h = true ∧
      (h.SetPtr GenericContainerTest.addr_two).GetTypeInfo = typeid (CppType.plain .int) ∧
      GenericContainerTest.locals (h.SetPtr GenericContainerTest.addr_two).GetPtr =
        some ⟨.double, 2⟩ ∧
      tokenDescribesDatum GenericContainerTest.locals
        (h.SetPtr GenericContainerTest.addr_two) = false :=
  ⟨⟨.TypeSpecificObjectStore (CppType.plain .int), GenericContainerTest.addr_one⟩,
    rfl, rfl, rfl, rfl, rfl⟩

/-- C10, amended: with no datum at the null address, a freshly constructed handle (base or
typed) satisfies the invariant; every handle found in a store built from a fresh one by
`Add` calls, each given a pointer that points at a datum of its own pointee type or at no
datum, satisfies it; and a call `SetPtr(q)` yields a handle that satisfies it exactly when
no datum lives at `q` or the datum at `q` has the type of the handle's token. -/
theorem C10_handle_invariant (m : Memory) (calls : List AddCall)
    (hnull : m nullptr = none)
    (hw : ∀ a ∈ calls, a.var.wellTyped m = true) :
    tokenDescribesDatum m GenericObjectStore.new = true ∧
    (∀ T, tokenDescribesDatum m (TypeSpecificObjectStore.new T) = true) ∧
    (∀ k h, ((runAdds GenericContainer.new calls).GetGenericStoreAt k).1 = .ok (some h) →
      tokenDescribesDatum m h = true) ∧
    (∀ (s : GenericObjectStore) (q : Nat),
      tokenDescribesDatum m (s.SetPtr q) = true ↔
        ∀ d, m q = some d → s.GetTypeInfo = ⟨d.type⟩) := by
  refine ⟨?_, ?_, ?_, ?_⟩
  · simp [tokenDescribesDatum, GenericObjectStore.new, GenericObjectStore.GetPtr, hnull]
  · intro T
    simp [tokenDescribesDatum, TypeSpecificObjectStore.new, GenericObjectStore.GetPtr, hnull]
  · intro k h hl
    have hl1 : (runAdds GenericContainer.new calls).vars.lookup k = some (some h) := by
      simpa [GenericContainer.GetGenericStoreAt, umap_at_eq_ok_iff] using hl
    rcases lookup_runAdds_origin calls GenericContainer.new k (some h) hl1 with h0 | ⟨a, ha, _, hh⟩
    · simp [GenericContainer.new] at h0
    · have hwa := hw a ha
      cases Option.some.inj hh
      simp only [TypedPtr.wellTyped] at hwa
      simp only [tokenDescribesDatum, GenericObjectStore.GetPtr, GenericObjectStore.GetTypeInfo,
        typeid]
      cases hm : m a.var.addr with
      | none => rfl
      | some d =>
        rw [hm] at hwa
        simp only [decide_eq_true_eq] at hwa
        simp [hwa]
  · intro s q
    simp only [tokenDescribesDatum, GenericObjectStore.GetPtr, GenericObjectStore.SetPtr,
      GenericObjectStore.GetTypeInfo]
    cases hm : m q with
    | none => simp
    | some d => simp

/-- C10 (amended) at the test data: the three well-typed `Add` calls of the tests. -/
theorem C10_handle_invariant_witness :
    GenericContainerTest.locals nullptr = none ∧
    (∀ a ∈ GenericContainerTest.threeAdds,
      a.var.wellTyped GenericContainerTest.locals = true) ∧
    ∀ k h, (GenericContainerTest.container.GetGenericStoreAt k).1 = .ok (some h) →
      tokenDescribesDatum GenericContainerTest.locals h = true :=
  ⟨rfl, by decide,
    (C10_handle_invariant GenericContainerTest.locals GenericContainerTest.threeAdds rfl
      (by decide)).2.2.1⟩

/-! ## The base token -/

/-- C11, refuted as stated: `Add<void>("v", p)` with a `void*` argument instantiates
`TypeSpecificObjectStore<void>`; the handle found under `"v"` is `Specific`, and its
`GetTypeInfo()` equals the token `GetTypeInfo()` of a bare `GenericObjectStore`, both being
`typeid(void)`. -/
theorem C11_base_token_counterexample :
    ∃ h : GenericObjectStore,
      ((GenericContainer.new.Add "v" ⟨CppType.plain .void, 1000⟩).GetGenericStoreAt "v").1 =
        .ok (some h) ∧
      h.GetStoreType = .StoreType_Specific ∧
      h.GetTypeInfo = GenericObjectStore.new.GetTypeInfo ∧
      (TypeSpecificObjectStore.new (CppType.plain .void)).GetTypeInfo =
        GenericObjectStore.new.GetTypeInfo :=
  ⟨⟨.TypeSpecificObjectStore (CppType.plain .void), 1000⟩, rfl, rfl, rfl, rfl⟩

/-- C11, amended: the base token is `typeid(void)`; for every type `T` whose cv-unqualified
type is not `void`, the token of a `TypeSpecificObjectStore<T>` differs from the token of
a base `GenericObjectStore`, whatever references the two objects hold, and so does the
token of the handle `Add<T>` stores under a new key. -/
theorem C11_base_token_distinct (T : CppType) (hT : T.name ≠ .void) :
    GenericObjectStore.new.GetTypeInfo = typeid (CppType.plain .void) ∧
    (∀ p q : Nat, ((TypeSpecificObjectStore.new T).SetPtr p).GetTypeInfo ≠
      (GenericObjectStore.new.SetPtr q).GetTypeInfo) ∧
    (∀ (c : GenericContainer) (k : String) (a : Nat),
      (c.GetGenericStoreAt k).1 = .error KeyNotFound →
      ∃ h : GenericObjectStore,
        ((c.Add k ⟨T, a⟩).GetGenericStoreAt k).1 = .ok (some h) ∧
        h.GetTypeInfo ≠ GenericObjectStore.new.GetTypeInfo) := by
  have hne : typeid T ≠ typeid (CppType.plain .void) := by
    simpa [typeid, CppType.plain] using hT
  refine ⟨rfl, fun p q => hne, ?_⟩
  intro c k a hk
  have hl : c.vars.lookup k = none := (GetGenericStoreAt_error_iff c k).1 hk
  refine ⟨⟨.TypeSpecificObjectStore T, a⟩, ?_, hne⟩
  simp [GenericContainer.GetGenericStoreAt, umap_at, lookup_Add_self c k ⟨T, a⟩ hl]

/-- C11 (amended) at `T = int`. -/
theorem C11_base_token_distinct_witness :
    (CppType.plain .int).name ≠ .void ∧
    ((TypeSpecificObjectStore.new (CppType.plain .int)).SetPtr 1000).GetTypeInfo ≠
      (GenericObjectStore.new.SetPtr 0).GetTypeInfo :=
  ⟨by decide, (C11_base_token_distinct (CppType.plain .int) (by decide)).2.1 1000 0⟩

/-! ## Duplicate keys -/

/-- C13, refuted as stated: the handle stored by `Add<int>("n", nullptr)` holds a null
reference to its datum, and `GetValuePtr<int>` on it throws nothing: it returns the null
`int*`. -/
theorem C13_null_reference_counterexample :
    ∃ h : GenericObjectStore,
      ((GenericContainer.new.Add "n" ⟨CppType.plain .int, nullptr⟩).GetGenericStoreAt "n").1 =
        .ok (some h) ∧
      h.GetPtr = nullptr ∧
      GetValuePtr (CppType.plain .int) (some h) = .ok ⟨CppType.plain .int, nullptr⟩ ∧
      GetValuePtr (CppType.plain .int) (some h) ≠ .error NullHandle :=
  ⟨⟨.TypeSpecificObjectStore (CppType.plain .int), nullptr⟩, rfl, rfl, rfl,
    fun e => by cases e⟩

/-- C13, amended: the `NullHandle` error covers the empty shared pointer only:
`GetValuePtr<T>` throws it exactly when the shared pointer itself is empty; on the handle
that `Add<T>(k, nullptr)` stores under a new key it succeeds and returns the null `T*`. -/
theorem C13_null_reference (c : GenericContainer) (k : String) (T : CppType)
    (hk : (c.GetGenericStoreAt k).1 = .error KeyNotFound) :
    (∀ (U : CppType) (h : shared_ptr), GetValuePtr U h = .error NullHandle ↔ h = none) ∧
    ∃ h : GenericObjectStore,
      ((c.Add k ⟨T, nullptr⟩).GetGenericStoreAt k).1 = .ok (some h) ∧
      h.GetPtr = nullptr ∧
      GetValuePtr T (some h) = .ok ⟨T, nullptr⟩ := by
  have hl : c.vars.lookup k = none := (GetGenericStoreAt_error_iff c k).1 hk
  constructor
  · intro U h
    cases h with
    | none => simp [GetValuePtr]
    | some o =>
      by_cases hg : o.GetStoreType = .StoreType_Generic
      · simp only [GetValuePtr, hg, if_true, Except.error.injEq]
        constructor
        · intro hh; exact absurd hh.symm NullHandle_ne_GenericHandleMisuse
        · intro hh; cases hh
      · simp [GetValuePtr, hg]
  · refine ⟨⟨.TypeSpecificObjectStore T, nullptr⟩, ?_, rfl, ?_⟩
    · simp [GenericContainer.GetGenericStoreAt, umap_at, lookup_Add_self c k ⟨T, nullptr⟩ hl]
    · simp [GetValuePtr, GenericObjectStore.GetStoreType, TypeSpecificObjectStore.GetValue]

/-- C13 (amended) at `Add<double>("n", nullptr)` on the container of the tests. -/
theorem C13_null_reference_witness :
    (GenericContainerTest.container.GetGenericStoreAt "n").1 = .error KeyNotFound ∧
    ∃ h : GenericObjectStore,
      ((GenericContainerTest.container.Add "n" ⟨CppType.plain .double, nullptr⟩).GetGenericStoreAt
        "n").1 = .ok (some h) ∧
      h.GetPtr = nullptr ∧
      GetValuePtr (CppType.plain .double) (some h) = .ok ⟨CppType.plain .double, nullptr⟩ :=
  ⟨rfl, (C13_null_reference GenericContainerTest.container "n" (CppType.plain .double) rfl).2⟩

/-! ## Growth and frame of `Add` -/

/-- C14 (monotonic growth and frame): for every store, key `k` and reference `p`,
`Add(k, p)` never decreases `Size()`: it grows by one when `k` is new and by zero
otherwise; for every key other than `k` the outcome of `GetGenericStoreAt` is the same
after the call as before; and `GetGenericStoreAt` and `Size` leave the store as it was. -/
theorem C14_growth_and_frame (c : GenericContainer) (k : String) (p : TypedPtr) :
    (c.Size).1 ≤ ((c.Add k p).Size).1 ∧
    ((c.GetGenericStoreAt k).1 = .error KeyNotFound →
      ((c.Add k p).Size).1 = (c.Size).1 + 1) ∧
    ((c.GetGenericStoreAt k).1 ≠ .error KeyNotFound →
      ((c.Add k p).Size).1 = (c.Size).1) ∧
    (∀ j, j ≠ k → ((c.Add k p).GetGenericStoreAt j).1 = (c.GetGenericStoreAt j).1) ∧
    (∀ j, (c.GetGenericStoreAt j).2 = c) ∧
    (c.Size).2 = c := by
  have hs := size_Add c k p
  refine ⟨?_, ?_, ?_, ?_, fun _ => rfl, rfl⟩
  · rw [hs]; exact Nat.le_add_right _ _
  · intro hk
    rw [hs, if_pos ((GetGenericStoreAt_error_iff c k).1 hk)]
  · intro hk
    have hl : c.vars.lookup k ≠ none := fun e => hk ((GetGenericStoreAt_error_iff c k).2 e)
    rw [hs, if_neg hl, Nat.add_zero]
  · intro j hj
    simp only [GenericContainer.GetGenericStoreAt, umap_at, lookup_Add_ne c k j p hj]

/-- C14 at the test data: adding the new key `"RandomClass"` and re-adding `"one"`. -/
theorem C14_growth_and_frame_witness :
    (GenericContainerTest.container.GetGenericStoreAt "RandomClass").1 = .error KeyNotFound ∧
    ((GenericContainerTest.container.Add "RandomClass" GenericContainerTest.ptr_rc).Size).1 =
      (GenericContainerTest.container.Size).1 + 1 ∧
    (GenericContainerTest.container.GetGenericStoreAt "one").1 ≠ .error KeyNotFound ∧
    ((GenericContainerTest.container.Add "one" GenericContainerTest.ptr_two).Size).1 =
      (GenericContainerTest.container.Size).1 ∧
    "two" ≠ "RandomClass" ∧
    ((GenericContainerTest.container.Add "RandomClass"
        GenericContainerTest.ptr_rc).GetGenericStoreAt "two").1 =
      (GenericContainerTest.container.GetGenericStoreAt "two").1 :=
  have hne : (GenericContainerTest.container.GetGenericStoreAt "one").1 ≠
      .error KeyNotFound := fun e => by cases e
  ⟨rfl,
   (C14_growth_and_frame GenericContainerTest.container "RandomClass"
      GenericContainerTest.ptr_rc).2.1 rfl,
   hne,
   (C14_growth_and_frame GenericContainerTest.container "one"
      GenericContainerTest.ptr_two).2.2.1 hne,
   by decide,
   (C14_growth_and_frame GenericContainerTest.container "RandomClass"
      GenericContainerTest.ptr_rc).2.2.2.1 "two" (by decide)⟩

/-! ## Handles obtained from a store -/

/-- C15 (store handles are usable): in every store built from a fresh one by `Add` calls,
every handle a successful `GetGenericStoreAt` returns is a non-empty shared pointer to an
object with `GetStoreType() == StoreType_Specific`, so `GetValuePtr<T>` throws neither of
its two errors on it and returns a `T*` holding the stored reference, for every `T`;
`StoreType_Generic` is reported by base-class objects only. -/
theorem C15_store_handles_usable (calls : List AddCall) (k : String) (h : shared_ptr)
    (hl : ((runAdds GenericContainer.new calls).GetGenericStoreAt k).1 = .ok h) :
    (∃ o : GenericObjectStore,
      h = some o ∧
      o.GetStoreType = .StoreType_Specific ∧
      ∀ T : CppType,
        GetValuePtr T h = .ok ⟨T, o.GetPtr⟩ ∧
        GetValuePtr T h ≠ .error NullHandle ∧
        GetValuePtr T h ≠ .error GenericHandleMisuse) ∧
    (∀ s : GenericObjectStore,
      s.GetStoreType = .StoreType_Generic ↔ s.dyn = .GenericObjectStore) := by
  have hl1 : (runAdds GenericContainer.new calls).vars.lookup k = some h := by
    simpa [GenericContainer.GetGenericStoreAt, umap_at_eq_ok_iff] using hl
  constructor
  · rcases lookup_runAdds_origin calls GenericContainer.new k h hl1 with h0 | ⟨a, _, _, hh⟩
    · simp [GenericContainer.new] at h0
    · refine ⟨⟨.TypeSpecificObjectStore a.var.pointee, a.var.addr⟩, hh, rfl, ?_⟩
      intro T
      have hv : GetValuePtr T h = .ok ⟨T, a.var.addr⟩ := by
        rw [hh]
        simp [GetValuePtr, GenericObjectStore.GetStoreType, TypeSpecificObjectStore.GetValue]
      refine ⟨hv, ?_, ?_⟩
      · rw [hv]; intro e; cases e
      · rw [hv]; intro e; cases e
  · intro s
    cases s with
    | mk dyn ptr =>
      cases dyn <;> simp [GenericObjectStore.GetStoreType]

/-- C15 at the test data: the handle under `"two"` in the container of the tests. -/
theorem C15_store_handles_usable_witness :
    (GenericContainerTest.container.GetGenericStoreAt "two").1 =
      .ok (some ⟨.TypeSpecificObjectStore (CppType.plain .double),
        GenericContainerTest.addr_two⟩) ∧
    ∃ o : GenericObjectStore,
      (some ⟨.TypeSpecificObjectStore (CppType.plain .double),
        GenericContainerTest.addr_two⟩ : shared_ptr) = some o ∧
      o.GetStoreType = .StoreType_Specific ∧
      GetValuePtr (CppType.plain .double) (some o) =
        .ok ⟨CppType.plain .double, o.GetPtr⟩ := by
  obtain ⟨o, h1, h2, h3⟩ :=
    (C15_store_handles_usable GenericContainerTest.threeAdds "two"
      (some ⟨.TypeSpecificObjectStore (CppType.plain .double),
        GenericContainerTest.addr_two⟩) rfl).1
  refine ⟨rfl, o, h1, h2, ?_⟩
  rw [← h1]
  exact (h3 (CppType.plain .double)).1

end GenericStorage
